import Mathlib

/-!
# Verification of the interactive fitting widget (`src/iminuit/qtwidget.py`)

Shallow embedding of the widget logic of `qtwidget.py` and proofs about it.

Modelling conventions:
* Python floats are modelled as exact rationals (`ℚ`).  Quantities that the
  code allows to be infinite (the per-parameter limits) are modelled as
  `Option ℚ`: for a lower limit `none` stands for `-inf`, for an upper limit
  `none` stands for `+inf`; `np.isfinite` then corresponds to `Option.isSome`.
* The external minimizer (`iminuit.Minuit`) is an opaque collaborator.  Its
  per-parameter state (`values`, `limits`, `fixed`) that the widget reads and
  writes is carried explicitly in a `Minuit` record; the optimization
  algorithms (`migrad`/`scipy`/`simplex`) and `Minuit.reset` are universally
  quantified state transformers.
* Qt signal emission is explicit: slider operations return the list of
  `floatValueChanged` payloads they emit; `blockSignals` is the `blocked`
  flag.  The Qt `clicked` signal fires only on user clicks, never on a
  programmatic `setChecked`, so the toggle handlers run exactly on the
  modelled click events.
* Purely graphical effects (labels, layout, canvas drawing, the HTML results
  pane) are not modelled; of `plot_with_frame` we record the
  `(from_fit, report_success)` pair that decides the success/FAILURE overlay.
-/

namespace Qtwidget

/-- Python's `int()` applied to a float/rational truncates toward zero. -/
def pyInt (q : ℚ) : ℤ := if 0 ≤ q then ⌊q⌋ else ⌈q⌉

/-- Clamping of `v` into `[lo, hi]`, with the same branch structure as
`FloatSlider.setValue`.  Used in theorem statements. -/
def clampTo (lo hi v : ℚ) : ℚ := if v < lo then lo else if hi < v then hi else v

/-- The largest double, `sys.float_info.max = (2 - 2^(-52)) * 2^1023`, exactly. -/
def floatMax : ℚ := 2 ^ 1024 - 2 ^ 971

/-- `_make_finite` applied to a lower limit (`none` encodes `-inf`). -/
def make_finite_lo (x : Option ℚ) : ℚ := x.getD (-floatMax)

/-- `_make_finite` applied to an upper limit (`none` encodes `+inf`). -/
def make_finite_hi (x : Option ℚ) : ℚ := x.getD floatMax

/-- State of the custom `FloatSlider`:
`min`/`max`/`val` are `_min`/`_max`/`_value`, `pos` is the underlying integer
slider position (`super().setValue`), `blocked` is the Qt `blockSignals`
flag. -/
structure FloatSlider where
  min : ℚ
  max : ℚ
  val : ℚ
  pos : ℤ
  blocked : Bool
deriving Repr, DecidableEq

/-- The state of a freshly constructed `FloatSlider` (`__init__`). -/
def FloatSlider.init : FloatSlider :=
  { min := 0, max := 1, val := 1 / 2, pos := 50000000, blocked := false }

/-- `FloatSlider.value()`. -/
def FloatSlider.value (s : FloatSlider) : ℚ := s.val

/-- `FloatSlider._int_to_float`. -/
def FloatSlider.int_to_float (s : FloatSlider) (value : ℤ) : ℚ :=
  s.min + ((value : ℚ) / 100000000) * (s.max - s.min)

/-- `FloatSlider._float_to_int`: note the Python `int(...)` conversion. -/
def FloatSlider.float_to_int (s : FloatSlider) (value : ℚ) : ℤ :=
  pyInt ((value - s.min) / (s.max - s.min) * 100000000)

/-- `FloatSlider.setValue`.  Returns the new state together with the list of
`floatValueChanged` payloads emitted (`_emit_float_value_changed` emits the
stored `_value` unless signals are blocked; in the in-range branch the
emission of the underlying integer slider is explicitly blocked and the
final `blockSignals(False)` leaves the slider unblocked). -/
def FloatSlider.setValue (s : FloatSlider) (value : ℚ) : FloatSlider × List ℚ :=
  if value < s.min then
    let s1 := { s with val := s.min, pos := 0 }
    (s1, if s1.blocked then [] else [s1.val])
  else if s.max < value then
    let s1 := { s with val := s.max, pos := 100000000 }
    (s1, if s1.blocked then [] else [s1.val])
  else
    let s1 := { s with val := value }
    ({ s1 with pos := s1.float_to_int value, blocked := false }, [])

/-- `FloatSlider.setMinimum`: a guarded update followed by re-clamping via
`setValue` on the stored `_value`. -/
def FloatSlider.setMinimum (s : FloatSlider) (min_value : ℚ) : FloatSlider × List ℚ :=
  if s.max ≤ min_value then (s, [])
  else FloatSlider.setValue { s with min := min_value } s.val

/-- `FloatSlider.setMaximum`. -/
def FloatSlider.setMaximum (s : FloatSlider) (max_value : ℚ) : FloatSlider × List ℚ :=
  if max_value ≤ s.min then (s, [])
  else FloatSlider.setValue { s with max := max_value } s.val

/-! ### Basic frame lemmas for the slider operations -/

theorem setValue_min (s : FloatSlider) (v : ℚ) : (s.setValue v).1.min = s.min := by
  simp only [FloatSlider.setValue]
  split_ifs <;> rfl

theorem setValue_max (s : FloatSlider) (v : ℚ) : (s.setValue v).1.max = s.max := by
  simp only [FloatSlider.setValue]
  split_ifs <;> rfl

theorem setValue_val (s : FloatSlider) (v : ℚ) :
    (s.setValue v).1.val = clampTo s.min s.max v := by
  simp only [FloatSlider.setValue, clampTo]
  split_ifs <;> rfl

theorem setValue_silent (s : FloatSlider) (v : ℚ) (h : s.blocked = true) :
    (s.setValue v).2 = [] := by
  simp only [FloatSlider.setValue]
  split_ifs <;> simp [h]

theorem setMinimum_max (s : FloatSlider) (m : ℚ) : (s.setMinimum m).1.max = s.max := by
  simp only [FloatSlider.setMinimum]
  split_ifs with h
  · rfl
  · exact setValue_max _ _

theorem setMaximum_min (s : FloatSlider) (m : ℚ) : (s.setMaximum m).1.min = s.min := by
  simp only [FloatSlider.setMaximum]
  split_ifs with h
  · rfl
  · exact setValue_min _ _

theorem setMinimum_silent (s : FloatSlider) (m : ℚ) (h : s.blocked = true) :
    (s.setMinimum m).2 = [] := by
  simp only [FloatSlider.setMinimum]
  split_ifs
  · rfl
  · exact setValue_silent _ _ h

theorem setMaximum_silent (s : FloatSlider) (m : ℚ) (h : s.blocked = true) :
    (s.setMaximum m).2 = [] := by
  simp only [FloatSlider.setMaximum]
  split_ifs
  · rfl
  · exact setValue_silent _ _ h

theorem setMinimum_of_lt (s : FloatSlider) (m : ℚ) (h : m < s.max) :
    (s.setMinimum m).1.min = m ∧ (s.setMinimum m).1.max = s.max ∧
      (s.setMinimum m).1.val = clampTo m s.max s.val := by
  simp only [FloatSlider.setMinimum, if_neg (not_le.mpr h)]
  exact ⟨setValue_min _ _, setValue_max _ _, setValue_val _ _⟩

theorem setMaximum_of_lt (s : FloatSlider) (m : ℚ) (h : s.min < m) :
    (s.setMaximum m).1.max = m ∧ (s.setMaximum m).1.min = s.min ∧
      (s.setMaximum m).1.val = clampTo s.min m s.val := by
  simp only [FloatSlider.setMaximum, if_neg (not_le.mpr h)]
  exact ⟨setValue_max _ _, setValue_min _ _, setValue_val _ _⟩

/-! ### Claims C1, C4, C9 about the slider -/

/-- **C1.** For every `FloatSlider` (signals not blocked) with window
`[min, max]`, `min < max`: `setValue v` with `v < min` sets the logical value
to `min` and emits a notification reporting `min`; with `v > max` it sets the
logical value to `max` and reports `max`; with `min ≤ v ≤ max` it stores `v`
exactly as the logical value and emits nothing, so `value()` returns a
number within one quantization step `(max - min) / 1e8` of `v` — indeed
exactly `v`. -/
theorem C1_setValue_clamps_and_stores_exactly (s : FloatSlider) (v : ℚ)
    (hb : s.blocked = false) (hlt : s.min < s.max) :
    (v < s.min → (s.setValue v).1.value = s.min ∧ (s.setValue v).2 = [s.min]) ∧
    (s.max < v → (s.setValue v).1.value = s.max ∧ (s.setValue v).2 = [s.max]) ∧
    (s.min ≤ v → v ≤ s.max →
      (s.setValue v).1.value = v ∧ (s.setValue v).2 = [] ∧
        |(s.setValue v).1.value - v| ≤ (s.max - s.min) / 100000000) := by
  refine ⟨fun h => ?_, fun h => ?_, fun h1 h2 => ?_⟩
  · simp [FloatSlider.setValue, FloatSlider.value, if_pos h, hb]
  · simp [FloatSlider.setValue, FloatSlider.value, if_neg (not_lt.mpr (le_of_lt (lt_trans hlt h))), if_pos h, hb]
  · have hn1 : ¬(v < s.min) := not_lt.mpr h1
    have hn2 : ¬(s.max < v) := not_lt.mpr h2
    refine ⟨?_, ?_, ?_⟩
    · simp [FloatSlider.setValue, FloatSlider.value, if_neg hn1, if_neg hn2]
    · simp [FloatSlider.setValue, if_neg hn1, if_neg hn2]
    · have hv : (s.setValue v).1.value = v := by
        simp [FloatSlider.setValue, FloatSlider.value, if_neg hn1, if_neg hn2]
      rw [hv, sub_self, abs_zero]
      have h3 : (0 : ℚ) ≤ s.max - s.min := by linarith
      exact div_nonneg h3 (by norm_num)

/-- Witness for C1 at the freshly initialized slider (`min = 0`, `max = 1`)
and the in-range input `v = 1/4`. -/
theorem C1_witness :
    ((FloatSlider.init.setValue (1 / 4)).1.value = 1 / 4 ∧
      (FloatSlider.init.setValue (1 / 4)).2 = [] ∧
      |(FloatSlider.init.setValue (1 / 4)).1.value - 1 / 4| ≤ (FloatSlider.init.max - FloatSlider.init.min) / 100000000) :=
  (C1_setValue_clamps_and_stores_exactly FloatSlider.init (1 / 4) rfl (by norm_num [FloatSlider.init])).2.2
    (by norm_num [FloatSlider.init]) (by norm_num [FloatSlider.init])

/-- **C4 counterexample.** The claim says the float-to-integer conversion
yields the *nearest* integer position, `round ((v - min)/(max - min) * 1e8)`.
On the initial window `[0, 1]` and the in-range value `v = 3 / 500000000`
(scaled position `3/5`), the code computes position `0` (Python `int()`
truncates) while the nearest integer position is `1`. -/
theorem C4_counterexample :
    FloatSlider.init.min ≤ 3 / 500000000 ∧ (3 / 500000000 : ℚ) ≤ FloatSlider.init.max ∧
      FloatSlider.init.float_to_int (3 / 500000000) ≠
        round ((3 / 500000000 - FloatSlider.init.min) / (FloatSlider.init.max - FloatSlider.init.min) * 100000000) := by
  refine ⟨by norm_num [FloatSlider.init], by norm_num [FloatSlider.init], ?_⟩
  have h1 : FloatSlider.init.float_to_int (3 / 500000000) = 0 := by
    simp only [FloatSlider.float_to_int, FloatSlider.init, pyInt]
    rw [if_pos (by norm_num)]
    rw [show ((3 : ℚ) / 500000000 - 0) / (1 - 0) * 100000000 = 3 / 5 by norm_num]
    rw [Int.floor_eq_zero_iff, Set.mem_Ico]
    norm_num
  have h2 : round ((3 / 500000000 - FloatSlider.init.min) /
      (FloatSlider.init.max - FloatSlider.init.min) * 100000000) = 1 := by
    simp only [FloatSlider.init]
    rw [show ((3 : ℚ) / 500000000 - 0) / (1 - 0) * 100000000 = 3 / 5 by norm_num]
    rw [round_eq, show (3 / 5 : ℚ) + 1 / 2 = 11 / 10 by norm_num]
    rw [Int.floor_eq_iff]
    norm_num
  rw [h1, h2]
  norm_num

/-- **C4 (amended).** For `min ≤ v ≤ max` and `min < max`, the float-to-integer
conversion truncates: it yields `⌊(v - min)/(max - min) * 1e8⌋` (truncation
toward zero, which is the floor since the scaled value is nonnegative), not
the nearest integer position. -/
theorem C4_float_to_int_truncates (s : FloatSlider) (v : ℚ)
    (h1 : s.min ≤ v) (h2 : v ≤ s.max) (hlt : s.min < s.max) :
    s.float_to_int v = ⌊(v - s.min) / (s.max - s.min) * 100000000⌋ := by
  have hnum : (0 : ℚ) ≤ v - s.min := sub_nonneg.mpr h1
  have hden : (0 : ℚ) < s.max - s.min := sub_pos.mpr hlt
  have hpos : (0 : ℚ) ≤ (v - s.min) / (s.max - s.min) * 100000000 := by positivity
  simp only [FloatSlider.float_to_int, pyInt]
  rw [if_pos hpos]

/-- Witness for the amended C4: on the window `[0, 1]` the in-range value
`3 / 500000000` is mapped to position `0 = ⌊3/5⌋`. -/
theorem C4_witness :
    FloatSlider.init.float_to_int (3 / 500000000) =
      ⌊(3 / 500000000 - FloatSlider.init.min) / (FloatSlider.init.max - FloatSlider.init.min) * 100000000⌋ :=
  C4_float_to_int_truncates FloatSlider.init (3 / 500000000)
    (by norm_num [FloatSlider.init]) (by norm_num [FloatSlider.init])
    (by norm_num [FloatSlider.init])

/-- **C9.** `setMinimum m` is a no-op (the whole state, window and value, is
unchanged and nothing is emitted) whenever `m ≥` the current maximum;
otherwise it sets the window lower bound to `m`, keeps the upper bound, and
re-clamps the current value into the new window.  `setMaximum m` behaves
symmetrically: it is a no-op whenever `m ≤` the current minimum. -/
theorem C9_setMinimum_setMaximum_guards (s : FloatSlider) (m : ℚ) :
    (s.max ≤ m → s.setMinimum m = (s, [])) ∧
    (m < s.max →
      (s.setMinimum m).1.min = m ∧ (s.setMinimum m).1.max = s.max ∧
        (s.setMinimum m).1.val = clampTo m s.max s.val) ∧
    (m ≤ s.min → s.setMaximum m = (s, [])) ∧
    (s.min < m →
      (s.setMaximum m).1.max = m ∧ (s.setMaximum m).1.min = s.min ∧
        (s.setMaximum m).1.val = clampTo s.min m s.val) := by
  refine ⟨fun h => ?_, fun h => setMinimum_of_lt s m h, fun h => ?_, fun h => setMaximum_of_lt s m h⟩
  · simp [FloatSlider.setMinimum, if_pos h]
  · simp [FloatSlider.setMaximum, if_pos h]

/-- Witness for C9: on the initial window `[0, 1]`, `setMinimum 2` is a no-op
and `setMinimum (1/4)` moves the lower bound to `1/4` keeping the value. -/
theorem C9_witness :
    FloatSlider.init.setMinimum 2 = (FloatSlider.init, []) ∧
      (FloatSlider.init.setMinimum (1 / 4)).1.min = 1 / 4 :=
  ⟨(C9_setMinimum_setMaximum_guards FloatSlider.init 2).1 (by norm_num [FloatSlider.init]),
    ((C9_setMinimum_setMaximum_guards FloatSlider.init (1 / 4)).2.1 (by norm_num [FloatSlider.init])).1⟩

/-! ### The external minimizer's per-parameter state and the parameter panels -/

/-- The per-parameter state of the external `Minuit` object that the widget
reads and writes: `values`, `limits` (a limit is `none` when infinite, see
the module conventions) and `fixed`.  The optimizer internals are opaque. -/
structure Minuit (n : ℕ) where
  values : Fin n → ℚ
  limits : Fin n → Option ℚ × Option ℚ
  fixed : Fin n → Bool

/-- The three entries of the algorithm combo box. -/
inductive Algo
  | migrad
  | scipy
  | simplex
deriving Repr, DecidableEq

/-- `_guess_initial_step(val, vmin, vmax)`: `1e-2 * (vmax - vmin)` when both
limits are finite, else the constant `1e-2`. -/
def guess_initial_step (val : ℚ) (vmin vmax : Option ℚ) : ℚ :=
  match val, vmin, vmax with
  | _, some a, some b => (1 / 100) * (b - a)
  | _, _, _ => 1 / 100

/-- State of one `Parameter` panel: its slider, the enabled flag of the
slider, the two limit spin boxes `tmin`/`tmax`, the two checkable buttons,
the guessed step, and the captured "original" (finite) reset targets. -/
structure Parameter where
  slider : FloatSlider
  sliderEnabled : Bool
  tmin : ℚ
  tmax : ℚ
  fixChecked : Bool
  fitChecked : Bool
  step : ℚ
  originalValue : ℚ
  originalLimits : ℚ × ℚ
deriving Repr, DecidableEq

/-- `Parameter.__init__` (the state-relevant part, source lines 126-177):
reads value and limits from the minimizer, substitutes
`val ∓ 100 * step` for infinite limits, stores the finite window in the spin
boxes and as the original reset target, and initializes the slider through
`setMinimum`/`setMaximum`/`setValue`.  Signal handlers are connected only
after all of this, so the emissions of the slider initialization reach no
handler and are dropped here. -/
def mkParameter (val : ℚ) (lim : Option ℚ × Option ℚ) (fixed : Bool) : Parameter :=
  let step := guess_initial_step val lim.1 lim.2
  let vmin2 := lim.1.getD (val - 100 * step)
  let vmax2 := lim.2.getD (val + 100 * step)
  let r1 := FloatSlider.init.setMinimum vmin2
  let r2 := r1.1.setMaximum vmax2
  let r3 := r2.1.setValue val
  { slider := r3.1
    sliderEnabled := true
    tmin := vmin2
    tmax := vmax2
    fixChecked := fixed
    fitChecked := false
    step := step
    originalValue := val
    originalLimits := (vmin2, vmax2) }

/-- `Parameter.reset(val, limits)` (source lines 223-240).  With
`limits = true` the slider window and both spin boxes are restored to the
captured original window, then the slider value is set to `val` (or to the
original value when `val` is `none`); every mutation is wrapped in
`blockSignals`, and the trailing `blockSignals(False)` leaves the slider
unblocked.  Returns the emissions that escape (provably none, see
`reset_silent`). -/
def Parameter.reset (p : Parameter) (val : Option ℚ) (limits : Bool) : Parameter × List ℚ :=
  let pr :=
    if limits then
      let sl0 := { p.slider with blocked := true }
      let r1 := sl0.setMinimum p.originalLimits.1
      let sl1 := { r1.1 with blocked := true }
      let r2 := sl1.setMaximum p.originalLimits.2
      ({ p with slider := r2.1, tmin := p.originalLimits.1, tmax := p.originalLimits.2 },
        r1.2 ++ r2.2)
    else (p, ([] : List ℚ))
  let p1 := pr.1
  let v := val.getD p1.originalValue
  let sl2 := { p1.slider with blocked := true }
  let r3 := sl2.setValue v
  ({ p1 with slider := { r3.1 with blocked := false } }, pr.2 ++ r3.2)

/-- All slider mutations of `Parameter.reset` happen with signals blocked:
nothing is emitted, so `on_val_change` never runs during a reset. -/
theorem reset_silent (p : Parameter) (val : Option ℚ) (limits : Bool) :
    (p.reset val limits).2 = [] := by
  simp only [Parameter.reset]
  split_ifs with h <;>
    simp [setMinimum_silent, setMaximum_silent, setValue_silent]

/-- A value-only reset (`limits = false`, as used after a fit) changes only
the slider's value (and its internal position/blocked bookkeeping): the
slider window, both spin boxes, the toggles and the captured originals are
untouched, and the new slider value is `val` clamped into the window. -/
theorem reset_value_only (p : Parameter) (v : ℚ) :
    ((p.reset (some v) false).1.slider.min = p.slider.min) ∧
    ((p.reset (some v) false).1.slider.max = p.slider.max) ∧
    ((p.reset (some v) false).1.slider.val = clampTo p.slider.min p.slider.max v) ∧
    ((p.reset (some v) false).1.tmin = p.tmin) ∧
    ((p.reset (some v) false).1.tmax = p.tmax) ∧
    ((p.reset (some v) false).1.fixChecked = p.fixChecked) ∧
    ((p.reset (some v) false).1.fitChecked = p.fitChecked) ∧
    ((p.reset (some v) false).1.sliderEnabled = p.sliderEnabled) ∧
    ((p.reset (some v) false).1.originalValue = p.originalValue) ∧
    ((p.reset (some v) false).1.originalLimits = p.originalLimits) ∧
    ((p.reset (some v) false).1.step = p.step) := by
  simp [Parameter.reset, setValue_min, setValue_max, setValue_val]

/-- A full reset (`limits = true`) restores both spin boxes to the captured
original window unconditionally, and preserves the toggles and originals. -/
theorem reset_limits_fields (p : Parameter) (val : Option ℚ) :
    ((p.reset val true).1.tmin = p.originalLimits.1) ∧
    ((p.reset val true).1.tmax = p.originalLimits.2) ∧
    ((p.reset val true).1.fixChecked = p.fixChecked) ∧
    ((p.reset val true).1.fitChecked = p.fitChecked) ∧
    ((p.reset val true).1.sliderEnabled = p.sliderEnabled) ∧
    ((p.reset val true).1.originalValue = p.originalValue) ∧
    ((p.reset val true).1.originalLimits = p.originalLimits) := by
  simp [Parameter.reset]

/-! ### Claim C7: panel construction -/

/-- **C7.** At panel construction, `initial_step = 1e-2 * (vmax - vmin)` when
both limits are finite and the constant `1e-2` otherwise; each infinite
limit is replaced by the finite working bound `value - 100 * step` (lower)
resp. `value + 100 * step` (upper), and this finite window is captured as
the panel's original reset target.  In particular `value = 5` with limits
`(-inf, inf)` gives step `1e-2` and working window `(4, 6)`. -/
theorem C7_initial_step_and_window (val a b : ℚ) (fx : Bool) :
    ((mkParameter val (some a, some b) fx).step = (1 / 100) * (b - a) ∧
      (mkParameter val (some a, some b) fx).originalLimits = (a, b)) ∧
    ((mkParameter val (none, some b) fx).step = 1 / 100 ∧
      (mkParameter val (none, some b) fx).originalLimits = (val - 100 * (1 / 100), b)) ∧
    ((mkParameter val (some a, none) fx).step = 1 / 100 ∧
      (mkParameter val (some a, none) fx).originalLimits = (a, val + 100 * (1 / 100))) ∧
    ((mkParameter val (none, none) fx).step = 1 / 100 ∧
      (mkParameter val (none, none) fx).originalLimits =
        (val - 100 * (1 / 100), val + 100 * (1 / 100))) ∧
    ((mkParameter 5 (none, none) fx).step = 1 / 100 ∧
      (mkParameter 5 (none, none) fx).originalLimits = (4, 6)) := by
  refine ⟨⟨rfl, rfl⟩, ⟨rfl, rfl⟩, ⟨rfl, rfl⟩, ⟨rfl, rfl⟩, ⟨rfl, ?_⟩⟩
  simp only [mkParameter, guess_initial_step, Option.getD_none]
  norm_num

/-! ### The session controller (`MainWindow`) -/

/-- State of the `MainWindow` session: the shared minimizer, one panel per
parameter, the values/limits captured at construction for the Reset button,
and the `(from_fit, report_success)` pair of the last `plot_with_frame`
call (which decides the success/FAILURE overlay). -/
structure MainWindow (n : ℕ) where
  minuit : Minuit n
  parameters : Fin n → Parameter
  original_values : Fin n → ℚ
  original_limits : Fin n → Option ℚ × Option ℚ
  lastReport : Option (Bool × Bool)

/-- `MainWindow.__init__` (the state-relevant part): builds one panel per
parameter, captures `minuit.values[:]` and `minuit.limits[:]` — the true,
possibly infinite, limits — and draws the initial plot with
`from_fit=False, report_success=True`. -/
def mkMainWindow {n : ℕ} (m : Minuit n) : MainWindow n :=
  { minuit := m
    parameters := fun i => mkParameter (m.values i) (m.limits i) (m.fixed i)
    original_values := m.values
    original_limits := m.limits
    lastReport := some (false, true) }

/-- `any(x.fit.isChecked() for x in self.parameters)`. -/
def MainWindow.anyFitChecked {n : ℕ} (w : MainWindow n) : Bool :=
  (List.finRange n).any fun i => (w.parameters i).fitChecked

/-- `plot_with_frame` reduced to its state-relevant effect: record which
`(from_fit, report_success)` overlay the redraw shows.  The drawing itself
(the plot callback, FCN text) is external graphics. -/
def MainWindow.plot_with_frame {n : ℕ} (w : MainWindow n)
    (from_fit report_success : Bool) : MainWindow n :=
  { w with lastReport := some (from_fit, report_success) }

/-- `MainWindow.fit`: dispatches on the algorithm combo box, runs the
selected external algorithm (`runAlgo`, an opaque transformer of the
minimizer state) and returns `True` for Migrad and Scipy, `False` for
Simplex. -/
def MainWindow.fit {n : ℕ} (runAlgo : Algo → Minuit n → Minuit n) (algo : Algo)
    (m : Minuit n) : Minuit n × Bool :=
  match algo with
  | .migrad => (runAlgo .migrad m, true)
  | .scipy => (runAlgo .scipy m, true)
  | .simplex => (runAlgo .simplex m, false)

/-- The success flag returned by `MainWindow.fit` per algorithm. -/
def fit_ok : Algo → Bool
  | .migrad => true
  | .scipy => true
  | .simplex => false

theorem fit_eq {n : ℕ} (runAlgo : Algo → Minuit n → Minuit n) (algo : Algo) (m : Minuit n) :
    MainWindow.fit runAlgo algo m = (runAlgo algo m, fit_ok algo) := by
  cases algo <;> rfl

/-- `MainWindow.do_fit`: runs the fit, refreshes every panel's slider to the
post-fit values via a value-only `Parameter.reset` (whose emissions are all
blocked, see `reset_silent`), and when `plot` is set performs the
`on_parameter_change(from_fit=True, ...)` redraw (results pane refresh plus
`plot_with_frame`).  Returns the success flag. -/
def MainWindow.do_fit {n : ℕ} (runAlgo : Algo → Minuit n → Minuit n) (algo : Algo)
    (w : MainWindow n) (plot : Bool) : MainWindow n × Bool :=
  let fr := MainWindow.fit runAlgo algo w.minuit
  let w1 : MainWindow n :=
    { w with
      minuit := fr.1
      parameters := fun i => ((w.parameters i).reset (some (fr.1.values i)) false).1 }
  if plot then (w1.plot_with_frame true fr.2, fr.2) else (w1, fr.2)

/-- `MainWindow.on_parameter_change` (source lines 344-362).  When not coming
from a fit and at least one panel has "fit" checked: saves `minuit.fixed[:]`,
sets `fixed[i] = not fit-checked[i]` for every parameter, runs
`do_fit(plot=False)`, refreshes the results pane, restores the saved fixed
flags, and finally redraws with `from_fit=True` and the fit's success flag.
Otherwise it only redraws (refreshing the results pane when `from_fit`). -/
def MainWindow.on_parameter_change {n : ℕ} (runAlgo : Algo → Minuit n → Minuit n)
    (algo : Algo) (w : MainWindow n) (from_fit report_success : Bool) : MainWindow n :=
  if from_fit then w.plot_with_frame from_fit report_success
  else if w.anyFitChecked then
    let saved := w.minuit.fixed
    let w1 : MainWindow n :=
      { w with minuit := { w.minuit with fixed := fun i => !(w.parameters i).fitChecked } }
    let r := w1.do_fit runAlgo algo false
    let w2 : MainWindow n := { r.1 with minuit := { r.1.minuit with fixed := saved } }
    w2.plot_with_frame true r.2
  else w.plot_with_frame false report_success

/-- `Parameter.on_val_change` as triggered by a slider emission: writes the
emitted value into `minuit.values[par]` and invokes the panel-change
callback (`on_parameter_change()` with its default arguments). -/
def MainWindow.on_val_change {n : ℕ} (runAlgo : Algo → Minuit n → Minuit n) (algo : Algo)
    (w : MainWindow n) (i : Fin n) (v : ℚ) : MainWindow n :=
  let w1 : MainWindow n :=
    { w with minuit := { w.minuit with values := Function.update w.minuit.values i v } }
  w1.on_parameter_change runAlgo algo false false

/-- A user edit of the `tmin` spin box of panel `i` to the value `v`,
followed by `Parameter.on_min_change` (source lines 189-198): if
`tmin >= tmax`-field the edit is reverted, with signals blocked, to the
minimizer's stored lower limit (an infinite stored limit is clamped by Qt to
the spin box minimum, i.e. to `make_finite_lo`); otherwise the slider lower
bound is updated — whose re-clamping may emit and thereby run
`on_val_change` — and the minimizer's limit pair becomes
`(tmin, previous upper)`. -/
def MainWindow.on_min_change {n : ℕ} (runAlgo : Algo → Minuit n → Minuit n) (algo : Algo)
    (w : MainWindow n) (i : Fin n) (v : ℚ) : MainWindow n :=
  let p0 := { w.parameters i with tmin := v }
  let w0 : MainWindow n := { w with parameters := Function.update w.parameters i p0 }
  if p0.tmax ≤ p0.tmin then
    let p1 := { p0 with tmin := make_finite_lo ((w0.minuit.limits i).1) }
    { w0 with parameters := Function.update w0.parameters i p1 }
  else
    let r := p0.slider.setMinimum p0.tmin
    let w1 : MainWindow n :=
      { w0 with parameters := Function.update w0.parameters i { p0 with slider := r.1 } }
    let w2 := r.2.foldl (fun t e => t.on_val_change runAlgo algo i e) w1
    let lim := w2.minuit.limits i
    { w2 with
      minuit :=
        { w2.minuit with limits := Function.update w2.minuit.limits i (some p0.tmin, lim.2) } }

/-- A user edit of the `tmax` spin box of panel `i`, followed by
`Parameter.on_max_change` (source lines 200-209), symmetric to
`on_min_change`. -/
def MainWindow.on_max_change {n : ℕ} (runAlgo : Algo → Minuit n → Minuit n) (algo : Algo)
    (w : MainWindow n) (i : Fin n) (v : ℚ) : MainWindow n :=
  let p0 := { w.parameters i with tmax := v }
  let w0 : MainWindow n := { w with parameters := Function.update w.parameters i p0 }
  if p0.tmax ≤ p0.tmin then
    let p1 := { p0 with tmax := make_finite_hi ((w0.minuit.limits i).2) }
    { w0 with parameters := Function.update w0.parameters i p1 }
  else
    let r := p0.slider.setMaximum p0.tmax
    let w1 : MainWindow n :=
      { w0 with parameters := Function.update w0.parameters i { p0 with slider := r.1 } }
    let w2 := r.2.foldl (fun t e => t.on_val_change runAlgo algo i e) w1
    let lim := w2.minuit.limits i
    { w2 with
      minuit :=
        { w2.minuit with limits := Function.update w2.minuit.limits i (lim.1, some p0.tmax) } }

/-- A user click on the "Fix" button of panel `i`: Qt toggles the checkable
button, then `Parameter.on_fix_toggled` runs: `minuit.fixed[par]` is set to
the button state and, when the button is now checked, the "Fit" toggle is
forced off (a programmatic `setChecked` emits no `clicked` signal, so no
handler runs for it). -/
def MainWindow.click_fix {n : ℕ} (w : MainWindow n) (i : Fin n) : MainWindow n :=
  let p1 := { w.parameters i with fixChecked := !(w.parameters i).fixChecked }
  let m := { w.minuit with fixed := Function.update w.minuit.fixed i p1.fixChecked }
  let p2 := if p1.fixChecked then { p1 with fitChecked := false } else p1
  { w with parameters := Function.update w.parameters i p2, minuit := m }

/-- A user click on the "Fit" button of panel `i`: Qt toggles the button,
then `Parameter.on_fit_toggled` runs: the slider enabled state follows the
(negated) toggle; when the toggle is now on, the "Fix" button is forced off
and `minuit.fixed[par] = False`; finally the panel-change callback runs. -/
def MainWindow.on_fit_toggled_core {n : ℕ} (w : MainWindow n) (i : Fin n) : MainWindow n :=
  let p1 := { w.parameters i with fitChecked := !(w.parameters i).fitChecked }
  let p2 := { p1 with sliderEnabled := !p1.fitChecked }
  let p3 := if p1.fitChecked then { p2 with fixChecked := false } else p2
  let m :=
    if p1.fitChecked then { w.minuit with fixed := Function.update w.minuit.fixed i false }
    else w.minuit
  { w with parameters := Function.update w.parameters i p3, minuit := m }

/-- The full "Fit"-toggle click: the handler body followed by the
panel-change callback (source line 221). -/
def MainWindow.click_fit {n : ℕ} (runAlgo : Algo → Minuit n → Minuit n) (algo : Algo)
    (w : MainWindow n) (i : Fin n) : MainWindow n :=
  (w.on_fit_toggled_core i).on_parameter_change runAlgo algo false false

/-- `MainWindow.on_reset_button_clicked` (source lines 377-383): resets the
minimizer's internal optimizer state (`minuit.reset()`, the opaque
`resetFn`), writes the captured construction-time `original_values` and
`original_limits` back into the minimizer, resets every panel with
`limits=True`, and re-plots via the callback. -/
def MainWindow.on_reset_button_clicked {n : ℕ} (runAlgo : Algo → Minuit n → Minuit n)
    (resetFn : Minuit n → Minuit n) (algo : Algo) (w : MainWindow n) : MainWindow n :=
  let m0 := resetFn w.minuit
  let m1 := { m0 with values := w.original_values, limits := w.original_limits }
  let w1 : MainWindow n :=
    { w with
      minuit := m1
      parameters := fun i => ((w.parameters i).reset (some (m1.values i)) true).1 }
  w1.on_parameter_change runAlgo algo false false

/-- The user-interaction events on the fix/fit toggles of the panels. -/
inductive ToggleEvent (n : ℕ)
  | fix (i : Fin n)
  | fit (i : Fin n)

/-- One toggle event applied to the session. -/
def MainWindow.toggle_step {n : ℕ} (runAlgo : Algo → Minuit n → Minuit n) (algo : Algo)
    (w : MainWindow n) : ToggleEvent n → MainWindow n
  | .fix i => w.click_fix i
  | .fit i => w.click_fit runAlgo algo i

/-! ### Frame lemmas for the session operations -/

/-- `w'` agrees with `w` on the minimizer's fixed flags and on all panel
fields except the slider's value/position bookkeeping. -/
def Keeps {n : ℕ} (w' w : MainWindow n) : Prop :=
  (w'.minuit.fixed = w.minuit.fixed) ∧
  ∀ j,
    ((w'.parameters j).tmin = (w.parameters j).tmin) ∧
    ((w'.parameters j).tmax = (w.parameters j).tmax) ∧
    ((w'.parameters j).slider.min = (w.parameters j).slider.min) ∧
    ((w'.parameters j).slider.max = (w.parameters j).slider.max) ∧
    ((w'.parameters j).fixChecked = (w.parameters j).fixChecked) ∧
    ((w'.parameters j).fitChecked = (w.parameters j).fitChecked) ∧
    ((w'.parameters j).sliderEnabled = (w.parameters j).sliderEnabled) ∧
    ((w'.parameters j).originalValue = (w.parameters j).originalValue) ∧
    ((w'.parameters j).originalLimits = (w.parameters j).originalLimits)

theorem keeps_refl {n : ℕ} (w : MainWindow n) : Keeps w w :=
  ⟨rfl, fun _ => ⟨rfl, rfl, rfl, rfl, rfl, rfl, rfl, rfl, rfl⟩⟩

theorem keeps_trans {n : ℕ} {w1 w2 w3 : MainWindow n}
    (h12 : Keeps w1 w2) (h23 : Keeps w2 w3) : Keeps w1 w3 := by
  obtain ⟨ha, hb⟩ := h12
  obtain ⟨hc, hd⟩ := h23
  refine ⟨ha.trans hc, fun j => ?_⟩
  obtain ⟨b1, b2, b3, b4, b5, b6, b7, b8, b9⟩ := hb j
  obtain ⟨d1, d2, d3, d4, d5, d6, d7, d8, d9⟩ := hd j
  exact ⟨b1.trans d1, b2.trans d2, b3.trans d3, b4.trans d4, b5.trans d5,
    b6.trans d6, b7.trans d7, b8.trans d8, b9.trans d9⟩

/-- `on_parameter_change` restores the fixed flags it temporarily changes
and touches no panel field besides the slider value. -/
theorem opc_keeps {n : ℕ} (runAlgo : Algo → Minuit n → Minuit n) (algo : Algo)
    (w : MainWindow n) (ff rep : Bool) :
    Keeps (w.on_parameter_change runAlgo algo ff rep) w := by
  simp only [MainWindow.on_parameter_change]
  split_ifs with h1 h2
  · exact keeps_refl w
  · refine ⟨rfl, fun j => ?_⟩
    simp only [MainWindow.do_fit, MainWindow.plot_with_frame]
    have h := reset_value_only (w.parameters j)
      ((MainWindow.fit runAlgo algo
        { w.minuit with fixed := fun i => !(w.parameters i).fitChecked }).1.values j)
    exact ⟨h.2.2.2.1, h.2.2.2.2.1, h.1, h.2.1, h.2.2.2.2.2.1, h.2.2.2.2.2.2.1,
      h.2.2.2.2.2.2.2.1, h.2.2.2.2.2.2.2.2.1, h.2.2.2.2.2.2.2.2.2.1⟩
  · exact keeps_refl w

/-- `on_val_change` only writes the slider value into `minuit.values` and
re-plots (possibly after a temporary-fix fit whose fixed flags are
restored). -/
theorem ovc_keeps {n : ℕ} (runAlgo : Algo → Minuit n → Minuit n) (algo : Algo)
    (w : MainWindow n) (i : Fin n) (v : ℚ) :
    Keeps (w.on_val_change runAlgo algo i v) w := by
  simp only [MainWindow.on_val_change]
  exact opc_keeps runAlgo algo _ false false

/-- Folding `on_val_change` over any emission list keeps the frame. -/
theorem fold_ovc_keeps {n : ℕ} (runAlgo : Algo → Minuit n → Minuit n) (algo : Algo)
    (i : Fin n) (es : List ℚ) (w : MainWindow n) :
    Keeps (es.foldl (fun t e => t.on_val_change runAlgo algo i e) w) w := by
  induction es generalizing w with
  | nil => exact keeps_refl w
  | cons e es ih =>
    exact keeps_trans (ih (w.on_val_change runAlgo algo i e)) (ovc_keeps runAlgo algo w i e)

/-- When the external algorithms do not modify the limits (they never do),
`on_parameter_change` leaves `minuit.limits` unchanged. -/
theorem opc_limits {n : ℕ} (runAlgo : Algo → Minuit n → Minuit n) (algo : Algo)
    (w : MainWindow n) (ff rep : Bool)
    (hpres : ∀ a m, (runAlgo a m).limits = m.limits) :
    (w.on_parameter_change runAlgo algo ff rep).minuit.limits = w.minuit.limits := by
  simp only [MainWindow.on_parameter_change]
  split_ifs with h1 h2
  · rfl
  · simp only [MainWindow.do_fit, MainWindow.plot_with_frame, fit_eq]
    exact hpres algo _
  · rfl

theorem ovc_limits {n : ℕ} (runAlgo : Algo → Minuit n → Minuit n) (algo : Algo)
    (w : MainWindow n) (i : Fin n) (v : ℚ)
    (hpres : ∀ a m, (runAlgo a m).limits = m.limits) :
    (w.on_val_change runAlgo algo i v).minuit.limits = w.minuit.limits := by
  simp only [MainWindow.on_val_change]
  exact opc_limits runAlgo algo _ false false hpres

theorem fold_ovc_limits {n : ℕ} (runAlgo : Algo → Minuit n → Minuit n) (algo : Algo)
    (i : Fin n) (es : List ℚ) (w : MainWindow n)
    (hpres : ∀ a m, (runAlgo a m).limits = m.limits) :
    (es.foldl (fun t e => t.on_val_change runAlgo algo i e) w).minuit.limits =
      w.minuit.limits := by
  induction es generalizing w with
  | nil => rfl
  | cons e es ih =>
    exact (ih (w.on_val_change runAlgo algo i e)).trans (ovc_limits runAlgo algo w i e hpres)

/-! ### Claims C2, C10: the fix/fit toggles -/

/-- The mutual-exclusion invariant of a session: a fit-opted panel is
neither fixed in the minimizer nor fix-checked. -/
def MutexInv {n : ℕ} (w : MainWindow n) : Prop :=
  ∀ i, (w.parameters i).fitChecked = true →
    (w.minuit.fixed i = false ∧ (w.parameters i).fixChecked = false)

theorem keeps_mutex {n : ℕ} {w' w : MainWindow n} (hk : Keeps w' w) (h : MutexInv w) :
    MutexInv w' := by
  intro j hj
  obtain ⟨hfx, hpar⟩ := hk
  obtain ⟨_, _, _, _, h5, h6, _, _, _⟩ := hpar j
  rw [h6] at hj
  obtain ⟨ha, hb⟩ := h j hj
  refine ⟨?_, ?_⟩
  · rw [hfx]; exact ha
  · rw [h5]; exact hb

theorem click_fix_inv {n : ℕ} (w : MainWindow n) (i : Fin n) (h : MutexInv w) :
    MutexInv (w.click_fix i) := by
  intro j hj
  by_cases hij : j = i
  · subst hij
    cases hfc : (w.parameters j).fixChecked with
    | false =>
      simp [MainWindow.click_fix, hfc, Function.update_same] at hj
    | true =>
      simp [MainWindow.click_fix, hfc, Function.update_same]
  · have hj' : (w.parameters j).fitChecked = true := by
      simpa [MainWindow.click_fix, Function.update_noteq hij] using hj
    obtain ⟨ha, hb⟩ := h j hj'
    simp [MainWindow.click_fix, Function.update_noteq hij, ha, hb]

theorem fit_core_inv {n : ℕ} (w : MainWindow n) (i : Fin n) (h : MutexInv w) :
    MutexInv (w.on_fit_toggled_core i) := by
  intro j hj
  by_cases hij : j = i
  · subst hij
    cases hfc : (w.parameters j).fitChecked with
    | false =>
      simp [MainWindow.on_fit_toggled_core, hfc, Function.update_same]
    | true =>
      simp [MainWindow.on_fit_toggled_core, hfc, Function.update_same] at hj
  · cases hfc : (w.parameters i).fitChecked with
    | false =>
      have hj' : (w.parameters j).fitChecked = true := by
        simpa [MainWindow.on_fit_toggled_core, hfc, Function.update_noteq hij] using hj
      obtain ⟨ha, hb⟩ := h j hj'
      simp [MainWindow.on_fit_toggled_core, hfc, Function.update_noteq hij, ha, hb]
    | true =>
      have hj' : (w.parameters j).fitChecked = true := by
        simpa [MainWindow.on_fit_toggled_core, hfc, Function.update_noteq hij] using hj
      obtain ⟨ha, hb⟩ := h j hj'
      simp [MainWindow.on_fit_toggled_core, hfc, Function.update_noteq hij, ha, hb]

theorem click_fit_inv {n : ℕ} (runAlgo : Algo → Minuit n → Minuit n) (algo : Algo)
    (w : MainWindow n) (i : Fin n) (h : MutexInv w) :
    MutexInv (w.click_fit runAlgo algo i) :=
  keeps_mutex (opc_keeps runAlgo algo _ false false) (fit_core_inv w i h)

theorem toggle_step_inv {n : ℕ} (runAlgo : Algo → Minuit n → Minuit n) (algo : Algo)
    (w : MainWindow n) (e : ToggleEvent n) (h : MutexInv w) :
    MutexInv (w.toggle_step runAlgo algo e) := by
  cases e with
  | fix i => exact click_fix_inv w i h
  | fit i => exact click_fit_inv runAlgo algo w i h

theorem foldl_toggle_inv {n : ℕ} (runAlgo : Algo → Minuit n → Minuit n) (algo : Algo)
    (evs : List (ToggleEvent n)) (w : MainWindow n) (h : MutexInv w) :
    MutexInv (evs.foldl (fun t e => t.toggle_step runAlgo algo e) w) := by
  induction evs generalizing w with
  | nil => exact h
  | cons e evs ih => exact ih _ (toggle_step_inv runAlgo algo w e h)

theorem mkMainWindow_mutex {n : ℕ} (m : Minuit n) : MutexInv (mkMainWindow m) := by
  intro i hi
  exact absurd hi (by simp [mkMainWindow, mkParameter])

/-- Turning the "Fix" toggle on: the parameter is marked fixed in the
minimizer and the "Fit" toggle is forced off. -/
theorem click_fix_on {n : ℕ} (w : MainWindow n) (i : Fin n)
    (h : (w.parameters i).fixChecked = false) :
    (w.click_fix i).minuit.fixed i = true ∧
      ((w.click_fix i).parameters i).fitChecked = false ∧
      ((w.click_fix i).parameters i).fixChecked = true := by
  simp [MainWindow.click_fix, h, Function.update_same]

/-- Turning the "Fit" toggle on (handler core): the "Fix" toggle is forced
off, the parameter is marked not fixed, the slider is disabled. -/
theorem fit_core_on {n : ℕ} (w : MainWindow n) (i : Fin n)
    (h : (w.parameters i).fitChecked = false) :
    (w.on_fit_toggled_core i).minuit.fixed i = false ∧
      ((w.on_fit_toggled_core i).parameters i).fixChecked = false ∧
      ((w.on_fit_toggled_core i).parameters i).fitChecked = true ∧
      ((w.on_fit_toggled_core i).parameters i).sliderEnabled = false := by
  simp [MainWindow.on_fit_toggled_core, h, Function.update_same]

/-- Turning the "Fit" toggle off (handler core): the slider is re-enabled
and neither the "Fix" toggle nor the minimizer's fixed flag changes. -/
theorem fit_core_off {n : ℕ} (w : MainWindow n) (i : Fin n)
    (h : (w.parameters i).fitChecked = true) :
    (w.on_fit_toggled_core i).minuit.fixed i = w.minuit.fixed i ∧
      ((w.on_fit_toggled_core i).parameters i).fixChecked = (w.parameters i).fixChecked ∧
      ((w.on_fit_toggled_core i).parameters i).fitChecked = false ∧
      ((w.on_fit_toggled_core i).parameters i).sliderEnabled = true := by
  simp [MainWindow.on_fit_toggled_core, h, Function.update_same]

/-- **C2.** Toggling "fix" on marks the parameter fixed in the minimizer and
forces the "fit" toggle off; toggling "fit" on forces "fix" off and marks
the parameter not fixed; and after any sequence of toggle events from
construction the mutual-exclusion invariant holds: a parameter fixed in the
minimizer is not fit-selected, and a fit-selected parameter is neither
fixed in the minimizer nor fix-checked. -/
theorem C2_fix_fit_mutual_exclusion {n : ℕ} (m0 : Minuit n)
    (runAlgo : Algo → Minuit n → Minuit n) (algo : Algo) (evs : List (ToggleEvent n)) :
    (∀ (w : MainWindow n) (i : Fin n), (w.parameters i).fixChecked = false →
      (w.click_fix i).minuit.fixed i = true ∧
        ((w.click_fix i).parameters i).fitChecked = false) ∧
    (∀ (w : MainWindow n) (i : Fin n), (w.parameters i).fitChecked = false →
      (w.click_fit runAlgo algo i).minuit.fixed i = false ∧
        ((w.click_fit runAlgo algo i).parameters i).fixChecked = false) ∧
    (∀ i,
      ((evs.foldl (fun t e => t.toggle_step runAlgo algo e) (mkMainWindow m0)).minuit.fixed i
          = true →
        ((evs.foldl (fun t e => t.toggle_step runAlgo algo e)
          (mkMainWindow m0)).parameters i).fitChecked = false) ∧
      (((evs.foldl (fun t e => t.toggle_step runAlgo algo e)
          (mkMainWindow m0)).parameters i).fitChecked = true →
        (evs.foldl (fun t e => t.toggle_step runAlgo algo e)
          (mkMainWindow m0)).minuit.fixed i = false)) := by
  have hInv := foldl_toggle_inv runAlgo algo evs (mkMainWindow m0) (mkMainWindow_mutex m0)
  refine ⟨?_, ?_, ?_⟩
  · intro w i h
    obtain ⟨h1, h2, _⟩ := click_fix_on w i h
    exact ⟨h1, h2⟩
  · intro w i h
    obtain ⟨hfx, hpar⟩ := opc_keeps runAlgo algo (w.on_fit_toggled_core i) false false
    obtain ⟨_, _, _, _, h5, _, _, _, _⟩ := hpar i
    obtain ⟨c1, c2, _, _⟩ := fit_core_on w i h
    refine ⟨?_, ?_⟩
    · show (w.click_fit runAlgo algo i).minuit.fixed i = false
      rw [MainWindow.click_fit, hfx]
      exact c1
    · show ((w.click_fit runAlgo algo i).parameters i).fixChecked = false
      rw [MainWindow.click_fit, h5]
      exact c2
  · intro i
    refine ⟨?_, fun h => (hInv i h).1⟩
    intro h
    cases hf : ((evs.foldl (fun t e => t.toggle_step runAlgo algo e)
        (mkMainWindow m0)).parameters i).fitChecked with
    | false => rfl
    | true => exact absurd h (by rw [(hInv i hf).1]; simp)

/-- A one-parameter minimizer state used for concrete witnesses: value `5`,
limits `(-inf, inf)`, not fixed. -/
def testMinuit : Minuit 1 :=
  { values := fun _ => 5, limits := fun _ => (none, none), fixed := fun _ => false }

/-- A one-parameter minimizer state whose parameter is fixed. -/
def testMinuitFixed : Minuit 1 :=
  { values := fun _ => 5, limits := fun _ => (none, none), fixed := fun _ => true }

/-- An external-algorithm model that leaves the minimizer state unchanged. -/
def idAlgo {n : ℕ} : Algo → Minuit n → Minuit n := fun _ m => m

/-- Witness for C2 at a concrete one-parameter session: clicking "Fix" on
the freshly built panel fixes the parameter, and after the toggle sequence
`[fix 0]` the invariant instance holds. -/
theorem C2_witness :
    ((mkMainWindow testMinuit).click_fix 0).minuit.fixed 0 = true ∧
      (([ToggleEvent.fix 0].foldl
        (fun t e => t.toggle_step idAlgo Algo.migrad e)
        (mkMainWindow testMinuit)).parameters 0).fitChecked = false := by
  have hC2 := C2_fix_fit_mutual_exclusion testMinuit idAlgo Algo.migrad [ToggleEvent.fix 0]
  refine ⟨(hC2.1 (mkMainWindow testMinuit) 0 (by decide)).1, (hC2.2.2 0).1 ?_⟩
  decide

/-- **C10.** Unchecking "fit" re-enables the slider but does not restore the
previous fixed state: for a parameter that was fixed, checking "fit" sets
`fixed = false` in the minimizer and unchecks "fix"; unchecking "fit"
afterwards leaves the minimizer's fixed flag `false` and the "fix" button
unchecked, with the slider enabled again. -/
theorem C10_fit_off_does_not_restore_fixed {n : ℕ}
    (runAlgo : Algo → Minuit n → Minuit n) (algo : Algo) (w : MainWindow n) (i : Fin n)
    (hfix : (w.parameters i).fixChecked = true)
    (hfit : (w.parameters i).fitChecked = false)
    (hfixed : w.minuit.fixed i = true) :
    ((w.click_fit runAlgo algo i).minuit.fixed i = false ∧
      ((w.click_fit runAlgo algo i).parameters i).fixChecked = false ∧
      ((w.click_fit runAlgo algo i).parameters i).fitChecked = true ∧
      ((w.click_fit runAlgo algo i).parameters i).sliderEnabled = false) ∧
    (((w.click_fit runAlgo algo i).click_fit runAlgo algo i).minuit.fixed i = false ∧
      (((w.click_fit runAlgo algo i).click_fit runAlgo algo i).parameters i).fixChecked
        = false ∧
      (((w.click_fit runAlgo algo i).click_fit runAlgo algo i).parameters i).fitChecked
        = false ∧
      (((w.click_fit runAlgo algo i).click_fit runAlgo algo i).parameters i).sliderEnabled
        = true) := by
  obtain ⟨hkf1, hkp1⟩ := opc_keeps runAlgo algo (w.on_fit_toggled_core i) false false
  obtain ⟨_, _, _, _, a5, a6, a7, _, _⟩ := hkp1 i
  obtain ⟨c1, c2, c3, c4⟩ := fit_core_on w i hfit
  have h1fixed : (w.click_fit runAlgo algo i).minuit.fixed i = false := by
    rw [MainWindow.click_fit, hkf1]; exact c1
  have h1fix : ((w.click_fit runAlgo algo i).parameters i).fixChecked = false := by
    rw [MainWindow.click_fit, a5]; exact c2
  have h1fit : ((w.click_fit runAlgo algo i).parameters i).fitChecked = true := by
    rw [MainWindow.click_fit, a6]; exact c3
  have h1en : ((w.click_fit runAlgo algo i).parameters i).sliderEnabled = false := by
    rw [MainWindow.click_fit, a7]; exact c4
  obtain ⟨hkf2, hkp2⟩ :=
    opc_keeps runAlgo algo ((w.click_fit runAlgo algo i).on_fit_toggled_core i) false false
  obtain ⟨_, _, _, _, b5, b6, b7, _, _⟩ := hkp2 i
  obtain ⟨d1, d2, d3, d4⟩ := fit_core_off (w.click_fit runAlgo algo i) i h1fit
  refine ⟨⟨h1fixed, h1fix, h1fit, h1en⟩, ?_, ?_, ?_, ?_⟩
  · show ((w.click_fit runAlgo algo i).click_fit runAlgo algo i).minuit.fixed i = false
    rw [MainWindow.click_fit, hkf2, d1]
    exact h1fixed
  · rw [MainWindow.click_fit, b5, d2]
    exact h1fix
  · rw [MainWindow.click_fit, b6]
    exact d3
  · rw [MainWindow.click_fit, b7]
    exact d4

/-- Witness for C10 at a concrete one-parameter session with the parameter
initially fixed. -/
theorem C10_witness :
    (((mkMainWindow testMinuitFixed).click_fit idAlgo Algo.migrad 0).click_fit
        idAlgo Algo.migrad 0).minuit.fixed 0 = false ∧
      ((((mkMainWindow testMinuitFixed).click_fit idAlgo Algo.migrad 0).click_fit
        idAlgo Algo.migrad 0).parameters 0).sliderEnabled = true := by
  have h := C10_fit_off_does_not_restore_fixed idAlgo Algo.migrad
    (mkMainWindow testMinuitFixed) 0 (by decide) (by decide) (by decide)
  exact ⟨h.2.1, h.2.2.2.2⟩


/-! ### Claim C5: the temporary-fix fit flow -/

/-- **C5.** If at least one panel has its "fit" toggle checked when a
parameter change fires, the session saves the minimizer's fixed flags,
temporarily sets `fixed = true` for every parameter whose panel is not
fit-checked (and `false` for the checked ones), runs the selected fit on
that temporarily-fixed state, afterwards restores the fixed flags for all
parameters to the saved values, and reports the fit's success flag. -/
theorem C5_temporary_fix_flow {n : ℕ} (runAlgo : Algo → Minuit n → Minuit n) (algo : Algo)
    (w : MainWindow n) (h : w.anyFitChecked = true) :
    ((w.on_parameter_change runAlgo algo false false).minuit.fixed = w.minuit.fixed) ∧
    ((w.on_parameter_change runAlgo algo false false).minuit.values =
      (runAlgo algo
        { w.minuit with fixed := fun i => !(w.parameters i).fitChecked }).values) ∧
    ((w.on_parameter_change runAlgo algo false false).lastReport =
      some (true, fit_ok algo)) := by
  simp [MainWindow.on_parameter_change, MainWindow.do_fit, MainWindow.plot_with_frame,
    fit_eq, h]

/-- A panel with the "fit" toggle checked, for concrete witnesses. -/
def testPanelFit : Parameter :=
  { mkParameter 5 (none, none) false with fitChecked := true }

/-- A one-parameter session whose single panel has "fit" checked. -/
def testWindowFit : MainWindow 1 :=
  { minuit := testMinuit
    parameters := fun _ => testPanelFit
    original_values := testMinuit.values
    original_limits := testMinuit.limits
    lastReport := none }

/-- Witness for C5 at a concrete one-parameter session with "fit" checked. -/
theorem C5_witness :
    ((testWindowFit.on_parameter_change idAlgo Algo.migrad false false).minuit.fixed =
      testWindowFit.minuit.fixed) ∧
      ((testWindowFit.on_parameter_change idAlgo Algo.migrad false false).lastReport =
        some (true, true)) := by
  have h := C5_temporary_fix_flow idAlgo Algo.migrad testWindowFit (by decide)
  exact ⟨h.1, h.2.2⟩

/-! ### Evaluation of the `(value 5, limits (-inf, inf))` panel -/

/-- The concrete panel built for `value = 5`, `limits = (-inf, inf)`: the
captured working window is `(4, 6)`; the slider window ends up `(0, 6)`
(the `setMinimum 4` during initialization is a no-op because the default
window is `[0, 1]`), with stored value `5`. -/
theorem mkParameter_5_inf_fields :
    ((mkParameter 5 (none, none) false).slider.min = 0) ∧
    ((mkParameter 5 (none, none) false).slider.max = 6) ∧
    ((mkParameter 5 (none, none) false).slider.val = 5) ∧
    ((mkParameter 5 (none, none) false).originalLimits = (4, 6)) := by
  have hg : guess_initial_step 5 none none = 1 / 100 := rfl
  have h1 : FloatSlider.init.setMinimum (5 - 100 * (1 / 100)) = (FloatSlider.init, []) := by
    simp only [FloatSlider.setMinimum]
    rw [if_pos (show FloatSlider.init.max ≤ 5 - 100 * (1 / 100) by
      norm_num [FloatSlider.init])]
  obtain ⟨m1, m2, m3⟩ := setMaximum_of_lt FloatSlider.init (5 + 100 * (1 / 100))
    (by norm_num [FloatSlider.init])
  simp only [mkParameter, hg, Option.getD_none, h1]
  refine ⟨?_, ?_, ?_, ?_⟩
  · rw [setValue_min, m2]
    norm_num [FloatSlider.init]
  · rw [setValue_max, m1]
    norm_num
  · rw [setValue_val, m2, m1]
    norm_num [clampTo, FloatSlider.init]
  · norm_num

/-! ### Claim C8: the "Fit" button refresh -/

/-- An external-algorithm model that moves the single parameter to `10`,
outside the panel's working window. -/
def bigAlgo : Algo → Minuit 1 → Minuit 1 := fun _ m => { m with values := fun _ => 10 }

/-- **C8 counterexample.** The claim says every panel's slider is set to the
minimizer's post-fit value.  On the one-parameter session with working
window `(4, 6)` and an external fit that moves the value to `10`, the
slider is set to the clamped value `6`, not to the post-fit value `10`. -/
theorem C8_counterexample :
    ((((mkMainWindow testMinuit).do_fit bigAlgo Algo.migrad true).1.parameters 0).slider.val
      = 6) ∧
    ((bigAlgo Algo.migrad (mkMainWindow testMinuit).minuit).values 0 = 10) ∧
    ((((mkMainWindow testMinuit).do_fit bigAlgo Algo.migrad true).1.parameters 0).slider.val
      ≠ (bigAlgo Algo.migrad (mkMainWindow testMinuit).minuit).values 0) := by
  have h0 : (mkMainWindow testMinuit).parameters 0 = mkParameter 5 (none, none) false := rfl
  have hv : (((mkMainWindow testMinuit).do_fit bigAlgo Algo.migrad true).1.parameters
      0).slider.val = 6 := by
    simp only [MainWindow.do_fit, MainWindow.plot_with_frame, fit_eq, eq_self_iff_true,
      if_true]
    rw [(reset_value_only _ _).2.2.1]
    rw [h0, mkParameter_5_inf_fields.1, mkParameter_5_inf_fields.2.1]
    norm_num [clampTo, bigAlgo]
  refine ⟨hv, rfl, ?_⟩
  rw [hv]
  norm_num [bigAlgo]

/-- **C8 (amended).** After a fit run triggered by the "Fit" button, every
panel's slider is set to the minimizer's post-fit value *clamped into the
panel's slider window* (hence to the post-fit value itself whenever that
value lies in the window), while the panel's min/max fields and the
slider's `[min, max]` window remain unchanged. -/
theorem C8_fit_button_refresh {n : ℕ} (runAlgo : Algo → Minuit n → Minuit n) (algo : Algo)
    (w : MainWindow n) (i : Fin n) :
    (((w.do_fit runAlgo algo true).1.parameters i).tmin = (w.parameters i).tmin) ∧
    (((w.do_fit runAlgo algo true).1.parameters i).tmax = (w.parameters i).tmax) ∧
    (((w.do_fit runAlgo algo true).1.parameters i).slider.min
      = (w.parameters i).slider.min) ∧
    (((w.do_fit runAlgo algo true).1.parameters i).slider.max
      = (w.parameters i).slider.max) ∧
    (((w.do_fit runAlgo algo true).1.parameters i).slider.val =
      clampTo (w.parameters i).slider.min (w.parameters i).slider.max
        ((runAlgo algo w.minuit).values i)) := by
  have h := reset_value_only (w.parameters i) ((runAlgo algo w.minuit).values i)
  simp only [MainWindow.do_fit, MainWindow.plot_with_frame, fit_eq, if_true]
  exact ⟨h.2.2.2.1, h.2.2.2.2.1, h.1, h.2.1, h.2.2.1⟩

/-! ### Claim C3: the Reset button -/

theorem anyFit_false {n : ℕ} (w : MainWindow n)
    (h : ∀ i, (w.parameters i).fitChecked = false) : w.anyFitChecked = false := by
  simp only [MainWindow.anyFitChecked, List.any_eq_false]
  intro i _
  simp [h i]

/-- When no panel has "fit" checked, `on_parameter_change` with
`from_fit = False` only redraws. -/
theorem opc_nofit {n : ℕ} (runAlgo : Algo → Minuit n → Minuit n) (algo : Algo)
    (w1 : MainWindow n) (rep : Bool)
    (h1 : ∀ i, (w1.parameters i).fitChecked = false) :
    w1.on_parameter_change runAlgo algo false rep = w1.plot_with_frame false rep := by
  simp only [MainWindow.on_parameter_change, Bool.false_eq_true, if_false,
    anyFit_false w1 h1]

/-- The minimizer part of the Reset button (no "fit" toggles active): the
optimizer reset is applied, then values and limits are overwritten with the
construction-time captures; the panels get a full reset. -/
theorem reset_button_minuit {n : ℕ} (runAlgo : Algo → Minuit n → Minuit n)
    (resetFn : Minuit n → Minuit n) (algo : Algo) (w : MainWindow n)
    (hfit : ∀ i, (w.parameters i).fitChecked = false) :
    ((w.on_reset_button_clicked runAlgo resetFn algo).minuit.values = w.original_values) ∧
    ((w.on_reset_button_clicked runAlgo resetFn algo).minuit.limits = w.original_limits) ∧
    ((w.on_reset_button_clicked runAlgo resetFn algo).minuit.fixed
      = (resetFn w.minuit).fixed) ∧
    (∀ i, (w.on_reset_button_clicked runAlgo resetFn algo).parameters i
      = ((w.parameters i).reset (some (w.original_values i)) true).1) := by
  simp only [MainWindow.on_reset_button_clicked]
  rw [opc_nofit _ _ _ _ (fun i => by
    simpa using (reset_limits_fields (w.parameters i)
      (some (w.original_values i))).2.2.2.1.trans (hfit i))]
  exact ⟨rfl, rfl, rfl, fun i => rfl⟩

/-- The slider produced by a full `Parameter.reset`, written as the explicit
composition of the blocked `setMinimum`/`setMaximum`/`setValue` steps of the
source. -/
theorem reset_true_slider (p : Parameter) (v : ℚ) :
    (p.reset (some v) true).1.slider =
      { (FloatSlider.setValue
          { (FloatSlider.setMaximum
              { (FloatSlider.setMinimum { p.slider with blocked := true }
                  p.originalLimits.1).1 with blocked := true }
              p.originalLimits.2).1 with blocked := true } v).1 with blocked := false } := rfl

/-- The `setMinimum a`/`setMaximum b`/`setValue v` restore sequence on a
slider `s` yields window `[a, b]` and value `v`, provided `a < s.max`,
`a < b` and `a ≤ v ≤ b`. -/
theorem blocked_min (s : FloatSlider) : ({ s with blocked := true } : FloatSlider).min = s.min :=
  rfl

theorem blocked_max (s : FloatSlider) : ({ s with blocked := true } : FloatSlider).max = s.max :=
  rfl

theorem slider_restore (s : FloatSlider) (a b v : ℚ)
    (hwin : a < s.max) (horder : a < b) (hv1 : a ≤ v) (hv2 : v ≤ b) :
    ((FloatSlider.setValue
        { (FloatSlider.setMaximum
            { (FloatSlider.setMinimum { s with blocked := true } a).1 with blocked := true }
            b).1 with blocked := true } v).1.min = a) ∧
    ((FloatSlider.setValue
        { (FloatSlider.setMaximum
            { (FloatSlider.setMinimum { s with blocked := true } a).1 with blocked := true }
            b).1 with blocked := true } v).1.max = b) ∧
    ((FloatSlider.setValue
        { (FloatSlider.setMaximum
            { (FloatSlider.setMinimum { s with blocked := true } a).1 with blocked := true }
            b).1 with blocked := true } v).1.val = v) := by
  obtain ⟨e1, e2, _⟩ := setMinimum_of_lt ({ s with blocked := true } : FloatSlider) a hwin
  obtain ⟨f1, f2, _⟩ := setMaximum_of_lt
    ({ (FloatSlider.setMinimum { s with blocked := true } a).1 with
      blocked := true } : FloatSlider) b (by rw [blocked_min, e1]; exact horder)
  refine ⟨?_, ?_, ?_⟩
  · rw [setValue_min, blocked_min, f2, blocked_min, e1]
  · rw [setValue_max, blocked_max, f1]
  · rw [setValue_val, blocked_min, blocked_max, f2, f1, blocked_min, e1]
    simp only [clampTo]
    rw [if_neg (not_lt.mpr hv1), if_neg (not_lt.mpr hv2)]

/-- The window/value part of a full `Parameter.reset`: when the captured
original window is proper, reachable from the current slider window, and
contains the supplied value, the slider window becomes exactly the original
window and the slider value becomes exactly the supplied value. -/
theorem reset_limits_window (p : Parameter) (v : ℚ)
    (hwin : p.originalLimits.1 < p.slider.max)
    (horder : p.originalLimits.1 < p.originalLimits.2)
    (hv1 : p.originalLimits.1 ≤ v) (hv2 : v ≤ p.originalLimits.2) :
    ((p.reset (some v) true).1.slider.min = p.originalLimits.1) ∧
    ((p.reset (some v) true).1.slider.max = p.originalLimits.2) ∧
    ((p.reset (some v) true).1.slider.val = v) := by
  obtain ⟨g1, g2, g3⟩ := slider_restore p.slider p.originalLimits.1 p.originalLimits.2 v
    hwin horder hv1 hv2
  refine ⟨?_, ?_, ?_⟩
  · rw [reset_true_slider]
    simpa using g1
  · rw [reset_true_slider]
    simpa using g2
  · rw [reset_true_slider]
    simpa using g3

/-- **C3 (amended).** Pressing "Reset" while no panel has its "fit" toggle
checked (with a toggle checked, the trailing callback immediately re-runs
the fit and the minimizer's values end at the post-fit values, see the
third part of the counterexample) applies the minimizer's internal
optimizer reset and restores the construction-time captured values and the
captured *true* limits — possibly infinite, not the finite working window —
into the minimizer, and restores every panel's min/max fields to the
panel's captured finite working window; the slider window and value are
restored to the captured finite window and value only when each panel's
original window is proper, its lower bound lies strictly below the panel's
current slider maximum, and it contains the original value — when the user
has shrunk a slider window to or below the captured lower bound, the
blocked `setMinimum` during the reset is a no-op and the slider's lower
bound is left unrestored (second part of the counterexample). -/
theorem C3_reset_button {n : ℕ} (runAlgo : Algo → Minuit n → Minuit n)
    (resetFn : Minuit n → Minuit n) (algo : Algo) (w : MainWindow n)
    (hfit : ∀ i, (w.parameters i).fitChecked = false)
    (hwin : ∀ i, (w.parameters i).originalLimits.1 < (w.parameters i).slider.max)
    (horder : ∀ i, (w.parameters i).originalLimits.1 < (w.parameters i).originalLimits.2)
    (hval : ∀ i, (w.parameters i).originalLimits.1 ≤ w.original_values i ∧
      w.original_values i ≤ (w.parameters i).originalLimits.2) :
    ((w.on_reset_button_clicked runAlgo resetFn algo).minuit.values = w.original_values) ∧
    ((w.on_reset_button_clicked runAlgo resetFn algo).minuit.limits = w.original_limits) ∧
    ((w.on_reset_button_clicked runAlgo resetFn algo).minuit.fixed
      = (resetFn w.minuit).fixed) ∧
    ∀ i,
      (((w.on_reset_button_clicked runAlgo resetFn algo).parameters i).tmin
        = (w.parameters i).originalLimits.1) ∧
      (((w.on_reset_button_clicked runAlgo resetFn algo).parameters i).tmax
        = (w.parameters i).originalLimits.2) ∧
      (((w.on_reset_button_clicked runAlgo resetFn algo).parameters i).slider.min
        = (w.parameters i).originalLimits.1) ∧
      (((w.on_reset_button_clicked runAlgo resetFn algo).parameters i).slider.max
        = (w.parameters i).originalLimits.2) ∧
      (((w.on_reset_button_clicked runAlgo resetFn algo).parameters i).slider.val
        = w.original_values i) := by
  obtain ⟨hv, hl, hf, hp⟩ := reset_button_minuit runAlgo resetFn algo w hfit
  refine ⟨hv, hl, hf, fun i => ?_⟩
  obtain ⟨t1, t2, _⟩ := reset_limits_fields (w.parameters i) (some (w.original_values i))
  obtain ⟨s1, s2, s3⟩ := reset_limits_window (w.parameters i) (w.original_values i)
    (hwin i) (horder i) (hval i).1 (hval i).2
  rw [hp i]
  exact ⟨t1, t2, s1, s2, s3⟩

/-- A literal panel in a consistent state with working window `(4, 6)` and
value `5`, for concrete witnesses. -/
def testPanel : Parameter :=
  { slider := { min := 4, max := 6, val := 5, pos := 50000000, blocked := false }
    sliderEnabled := true
    tmin := 4
    tmax := 6
    fixChecked := false
    fitChecked := false
    step := 1 / 100
    originalValue := 5
    originalLimits := (4, 6) }

/-- A literal one-parameter session around `testPanel`. -/
def testWindow : MainWindow 1 :=
  { minuit := testMinuit
    parameters := fun _ => testPanel
    original_values := fun _ => 5
    original_limits := fun _ => (none, none)
    lastReport := none }

/-- Witness for the amended C3 at a concrete one-parameter session. -/
theorem C3_witness :
    ((testWindow.on_reset_button_clicked idAlgo id Algo.migrad).minuit.limits
      = testWindow.original_limits) ∧
    (((testWindow.on_reset_button_clicked idAlgo id Algo.migrad).parameters
      0).slider.val = 5) := by
  have h := C3_reset_button idAlgo id Algo.migrad testWindow (fun _ => rfl)
    (fun i => by norm_num [testWindow, testPanel])
    (fun i => by norm_num [testWindow, testPanel])
    (fun i => by constructor <;> norm_num [testWindow, testPanel])
  exact ⟨h.2.1, (h.2.2.2 0).2.2.2.2⟩

/-! ### Claim C6: the limit edit controls -/

/-- Processing any emission list through `on_val_change` preserves every
panel's slider window (pointwise corollary of `fold_ovc_keeps`, in
simp-rule form). -/
theorem fold_ovc_parameters_slider_min {n : ℕ} (runAlgo : Algo → Minuit n → Minuit n)
    (algo : Algo) (i : Fin n) (es : List ℚ) (w : MainWindow n) (j : Fin n) :
    ((es.foldl (fun t e => t.on_val_change runAlgo algo i e) w).parameters j).slider.min
      = (w.parameters j).slider.min :=
  ((fold_ovc_keeps runAlgo algo i es w).2 j).2.2.1

theorem fold_ovc_parameters_slider_max {n : ℕ} (runAlgo : Algo → Minuit n → Minuit n)
    (algo : Algo) (i : Fin n) (es : List ℚ) (w : MainWindow n) (j : Fin n) :
    ((es.foldl (fun t e => t.on_val_change runAlgo algo i e) w).parameters j).slider.max
      = (w.parameters j).slider.max :=
  ((fold_ovc_keeps runAlgo algo i es w).2 j).2.2.2.1

/-- Limits-preservation of the emission processing, with the hypothesis on
the external algorithms up front so it can be partially applied. -/
theorem fold_ovc_limits_pres {n : ℕ} (runAlgo : Algo → Minuit n → Minuit n) (algo : Algo)
    (i : Fin n) (hpres : ∀ a m, (runAlgo a m).limits = m.limits) (es : List ℚ)
    (w : MainWindow n) :
    (es.foldl (fun t e => t.on_val_change runAlgo algo i e) w).minuit.limits =
      w.minuit.limits :=
  fold_ovc_limits runAlgo algo i es w hpres

/-- **C6.** An edit of the lower-limit field to a value `tmin ≥` the current
upper field value is rejected: the field is reverted to the minimizer's
last stored (finite) lower limit, and neither the slider, the upper field,
nor the minimizer's limits change.  Otherwise (given the panel invariant
that the slider's upper bound equals the `tmax` field) the slider's lower
bound is set to `tmin` and the minimizer's limit pair becomes
`(tmin, previous upper limit)`.  The upper-limit field behaves
symmetrically (with the invariant that the slider's lower bound is at most
the `tmin` field).  The external algorithms are assumed not to modify the
limits. -/
theorem C6_limit_edit_guards {n : ℕ} (runAlgo : Algo → Minuit n → Minuit n) (algo : Algo)
    (w : MainWindow n) (i : Fin n) (v : ℚ)
    (hpres : ∀ a m, (runAlgo a m).limits = m.limits) :
    ((w.parameters i).tmax ≤ v → ∀ l, (w.minuit.limits i).1 = some l →
      (((w.on_min_change runAlgo algo i v).parameters i).tmin = l ∧
        ((w.on_min_change runAlgo algo i v).parameters i).slider = (w.parameters i).slider ∧
        ((w.on_min_change runAlgo algo i v).parameters i).tmax = (w.parameters i).tmax ∧
        (w.on_min_change runAlgo algo i v).minuit.limits = w.minuit.limits)) ∧
    (v < (w.parameters i).tmax → (w.parameters i).slider.max = (w.parameters i).tmax →
      (((w.on_min_change runAlgo algo i v).parameters i).slider.min = v ∧
        (w.on_min_change runAlgo algo i v).minuit.limits i
          = (some v, (w.minuit.limits i).2))) ∧
    (v ≤ (w.parameters i).tmin → ∀ u, (w.minuit.limits i).2 = some u →
      (((w.on_max_change runAlgo algo i v).parameters i).tmax = u ∧
        ((w.on_max_change runAlgo algo i v).parameters i).slider = (w.parameters i).slider ∧
        ((w.on_max_change runAlgo algo i v).parameters i).tmin = (w.parameters i).tmin ∧
        (w.on_max_change runAlgo algo i v).minuit.limits = w.minuit.limits)) ∧
    ((w.parameters i).tmin < v → (w.parameters i).slider.min ≤ (w.parameters i).tmin →
      (((w.on_max_change runAlgo algo i v).parameters i).slider.max = v ∧
        (w.on_max_change runAlgo algo i v).minuit.limits i
          = ((w.minuit.limits i).1, some v))) := by
  refine ⟨fun h l hl => ?_, fun h hsync => ?_, fun h u hu => ?_, fun h hsync => ?_⟩
  · simp [MainWindow.on_min_change, h, hl, make_finite_lo, Function.update_same]
  · have hne : ¬((w.parameters i).tmax ≤ v) := not_le.mpr h
    obtain ⟨m1, _, _⟩ :=
      setMinimum_of_lt (w.parameters i).slider v (by rw [hsync]; exact h)
    simp only [MainWindow.on_min_change]
    rw [if_neg hne]
    constructor
    · simp only [fold_ovc_parameters_slider_min, Function.update_same]
      exact m1
    · simp only [fold_ovc_limits_pres runAlgo algo i hpres, Function.update_same]
  · simp [MainWindow.on_max_change, h, hu, make_finite_hi, Function.update_same]
  · have hne : ¬(v ≤ (w.parameters i).tmin) := not_le.mpr h
    obtain ⟨m1, _, _⟩ :=
      setMaximum_of_lt (w.parameters i).slider v (lt_of_le_of_lt hsync h)
    simp only [MainWindow.on_max_change]
    rw [if_neg hne]
    constructor
    · simp only [fold_ovc_parameters_slider_max, Function.update_same]
      exact m1
    · simp only [fold_ovc_limits_pres runAlgo algo i hpres, Function.update_same]

/-- A one-parameter minimizer state with the finite limits `(4, 6)`. -/
def testMinuitBox : Minuit 1 :=
  { values := fun _ => 5, limits := fun _ => (some 4, some 6), fixed := fun _ => false }

/-- A literal one-parameter session with finite limits `(4, 6)`. -/
def testWindowBox : MainWindow 1 :=
  { minuit := testMinuitBox
    parameters := fun _ => testPanel
    original_values := fun _ => 5
    original_limits := fun _ => (some 4, some 6)
    lastReport := none }

/-- Witness for C6 at the concrete session with limits `(4, 6)`: editing
`tmin` to `7 ≥ tmax = 6` reverts the field to the stored lower limit `4`
and leaves the minimizer's limits unchanged; editing `tmin` to `9/2 < 6`
moves the slider's lower bound to `9/2` and stores `(9/2, previous upper)`
in the minimizer. -/
theorem C6_witness :
    (((testWindowBox.on_min_change idAlgo Algo.migrad 0 7).parameters 0).tmin = 4 ∧
      (testWindowBox.on_min_change idAlgo Algo.migrad 0 7).minuit.limits
        = testWindowBox.minuit.limits) ∧
    (((testWindowBox.on_min_change idAlgo Algo.migrad 0 (9 / 2)).parameters
        0).slider.min = 9 / 2 ∧
      (testWindowBox.on_min_change idAlgo Algo.migrad 0 (9 / 2)).minuit.limits 0
        = (some (9 / 2), (testWindowBox.minuit.limits 0).2)) := by
  have hC6a := C6_limit_edit_guards idAlgo Algo.migrad testWindowBox 0 7 (fun _ _ => rfl)
  have hC6b := C6_limit_edit_guards idAlgo Algo.migrad testWindowBox 0 (9 / 2)
    (fun _ _ => rfl)
  have ha := hC6a.1 (by norm_num [testWindowBox, testPanel]) 4 rfl
  have hb := hC6b.2.1 (by norm_num [testWindowBox, testPanel])
    (by norm_num [testWindowBox, testPanel])
  exact ⟨⟨ha.1, ha.2.2.2⟩, hb⟩

/-! ### The C3 counterexample: Reset does not always restore the slider window -/

/-- The in-range branch of `setValue`: the value is stored exactly, the
window is kept, the slider ends unblocked and nothing is emitted. -/
theorem setValue_inrange (s : FloatSlider) (v : ℚ) (h1 : s.min ≤ v) (h2 : v ≤ s.max) :
    ((s.setValue v).1.min = s.min) ∧ ((s.setValue v).1.max = s.max) ∧
    ((s.setValue v).1.val = v) ∧ ((s.setValue v).1.blocked = false) ∧
    ((s.setValue v).2 = []) := by
  simp only [FloatSlider.setValue, if_neg (not_lt.mpr h1), if_neg (not_lt.mpr h2)]
  simp

/-- A `setMinimum` whose re-clamping `setValue` stays in range: the lower
bound moves, value and upper bound are kept, and nothing is emitted. -/
theorem setMinimum_quiet (s : FloatSlider) (v : ℚ) (hlt : v < s.max)
    (h1 : v ≤ s.val) (h2 : s.val ≤ s.max) :
    ((s.setMinimum v).1.min = v) ∧ ((s.setMinimum v).1.max = s.max) ∧
    ((s.setMinimum v).1.val = s.val) ∧ ((s.setMinimum v).1.blocked = false) ∧
    ((s.setMinimum v).2 = []) := by
  obtain ⟨a1, a2, a3, a4, a5⟩ := setValue_inrange ({ s with min := v } : FloatSlider) s.val
    (by simpa using h1) (by simpa using h2)
  simp only [FloatSlider.setMinimum, if_neg (not_le.mpr hlt)]
  refine ⟨?_, ?_, a3, a4, a5⟩
  · simpa using a1
  · simpa using a2

/-- A `setMaximum` below the current value: the value is clamped down to
the new upper bound and, when signals are not blocked, emitted. -/
theorem setMaximum_clamp (s : FloatSlider) (v : ℚ) (hgt : s.min < v) (hlt : v < s.val)
    (hge : s.min ≤ s.val) :
    ((s.setMaximum v).1.min = s.min) ∧ ((s.setMaximum v).1.max = v) ∧
    ((s.setMaximum v).1.val = v) ∧ ((s.setMaximum v).1.blocked = s.blocked) ∧
    ((s.setMaximum v).2 = if s.blocked then [] else [v]) := by
  have hn1 : ¬(s.val < ({ s with max := v } : FloatSlider).min) := by
    simpa using not_lt.mpr hge
  have hp2 : ({ s with max := v } : FloatSlider).max < s.val := by simpa using hlt
  simp only [FloatSlider.setMaximum, if_neg (not_le.mpr hgt), FloatSlider.setValue,
    if_neg hn1, if_pos hp2]
  simp

theorem unblocked_min (s : FloatSlider) :
    ({ s with blocked := false } : FloatSlider).min = s.min := rfl

/-- When the current slider maximum does not exceed the captured original
lower bound, the blocked `setMinimum` of a full `Parameter.reset` is a
no-op and the slider's lower bound is left unchanged. -/
theorem reset_min_noop (p : Parameter) (v : ℚ)
    (hnoop : p.slider.max ≤ p.originalLimits.1) :
    (p.reset (some v) true).1.slider.min = p.slider.min := by
  have h1 : ({ p.slider with blocked := true } : FloatSlider).setMinimum p.originalLimits.1
      = ({ p.slider with blocked := true }, []) := by
    simp only [FloatSlider.setMinimum]
    rw [if_pos (by simpa using hnoop)]
  rw [reset_true_slider, unblocked_min, setValue_min, blocked_min, setMaximum_min,
    blocked_min, h1]

/-- An accepted `tmin` edit whose slider re-clamping stays in range (no
emission): the panel's lower bound and `tmin` field move to the new value,
everything else is kept. -/
theorem on_min_change_accept_quiet {n : ℕ} (runAlgo : Algo → Minuit n → Minuit n)
    (algo : Algo) (w : MainWindow n) (i : Fin n) (v : ℚ)
    (hguard : ¬((w.parameters i).tmax ≤ v))
    (hlt : v < (w.parameters i).slider.max)
    (h1 : v ≤ (w.parameters i).slider.val)
    (h2 : (w.parameters i).slider.val ≤ (w.parameters i).slider.max) :
    (((w.on_min_change runAlgo algo i v).parameters i).slider.min = v) ∧
    (((w.on_min_change runAlgo algo i v).parameters i).slider.max
      = (w.parameters i).slider.max) ∧
    (((w.on_min_change runAlgo algo i v).parameters i).slider.val
      = (w.parameters i).slider.val) ∧
    (((w.on_min_change runAlgo algo i v).parameters i).slider.blocked = false) ∧
    (((w.on_min_change runAlgo algo i v).parameters i).tmin = v) ∧
    (((w.on_min_change runAlgo algo i v).parameters i).tmax = (w.parameters i).tmax) ∧
    (∀ j, ((w.on_min_change runAlgo algo i v).parameters j).fitChecked
      = (w.parameters j).fitChecked) ∧
    (((w.on_min_change runAlgo algo i v).parameters i).originalValue
      = (w.parameters i).originalValue) ∧
    (((w.on_min_change runAlgo algo i v).parameters i).originalLimits
      = (w.parameters i).originalLimits) ∧
    ((w.on_min_change runAlgo algo i v).original_values = w.original_values) ∧
    ((w.on_min_change runAlgo algo i v).original_limits = w.original_limits) := by
  obtain ⟨q1, q2, q3, q4, q5⟩ := setMinimum_quiet (w.parameters i).slider v hlt h1 h2
  simp only [MainWindow.on_min_change]
  rw [if_neg hguard, q5]
  simp only [List.foldl_nil]
  refine ⟨?_, ?_, ?_, ?_, ?_, ?_, fun j => ?_, ?_, ?_, trivial, trivial⟩
  · simpa [Function.update_same] using q1
  · simpa [Function.update_same] using q2
  · simpa [Function.update_same] using q3
  · simpa [Function.update_same] using q4
  · simp [Function.update_same]
  · simp [Function.update_same]
  · by_cases hji : j = i
    · subst hji
      simp [Function.update_same]
    · simp [Function.update_noteq hji]
  · simp [Function.update_same]
  · simp [Function.update_same]

/-- An accepted `tmax` edit below the current slider value (no panel
fit-checked, slider unblocked): the slider and the `tmax` field move to the
new value, the value is clamped down and routed through `on_val_change`
(which only writes `minuit.values` and re-plots), everything else is
kept. -/
theorem on_max_change_accept_clamp {n : ℕ} (runAlgo : Algo → Minuit n → Minuit n)
    (algo : Algo) (w : MainWindow n) (i : Fin n) (v : ℚ)
    (hguard : ¬(v ≤ (w.parameters i).tmin))
    (hgt : (w.parameters i).slider.min < v)
    (hlt : v < (w.parameters i).slider.val)
    (hge : (w.parameters i).slider.min ≤ (w.parameters i).slider.val)
    (hblocked : (w.parameters i).slider.blocked = false)
    (hnofit : ∀ j, (w.parameters j).fitChecked = false) :
    (((w.on_max_change runAlgo algo i v).parameters i).slider.min
      = (w.parameters i).slider.min) ∧
    (((w.on_max_change runAlgo algo i v).parameters i).slider.max = v) ∧
    (((w.on_max_change runAlgo algo i v).parameters i).slider.val = v) ∧
    (((w.on_max_change runAlgo algo i v).parameters i).slider.blocked = false) ∧
    (((w.on_max_change runAlgo algo i v).parameters i).tmin = (w.parameters i).tmin) ∧
    (((w.on_max_change runAlgo algo i v).parameters i).tmax = v) ∧
    (∀ j, ((w.on_max_change runAlgo algo i v).parameters j).fitChecked
      = (w.parameters j).fitChecked) ∧
    (((w.on_max_change runAlgo algo i v).parameters i).originalValue
      = (w.parameters i).originalValue) ∧
    (((w.on_max_change runAlgo algo i v).parameters i).originalLimits
      = (w.parameters i).originalLimits) ∧
    ((w.on_max_change runAlgo algo i v).original_values = w.original_values) ∧
    ((w.on_max_change runAlgo algo i v).original_limits = w.original_limits) := by
  obtain ⟨c1, c2, c3, c4, c5⟩ := setMaximum_clamp (w.parameters i).slider v hgt hlt hge
  simp only [MainWindow.on_max_change]
  rw [if_neg hguard, c5, hblocked]
  simp only [Bool.false_eq_true, if_false, List.foldl_cons, List.foldl_nil]
  simp only [MainWindow.on_val_change]
  rw [opc_nofit _ _ _ _ (fun j => by
    by_cases hji : j = i
    · subst hji
      simpa [Function.update_same] using hnofit j
    · simpa [Function.update_noteq hji] using hnofit j)]
  simp only [MainWindow.plot_with_frame]
  refine ⟨?_, ?_, ?_, ?_, ?_, ?_, fun j => ?_, ?_, ?_, trivial, trivial⟩
  · simpa [Function.update_same] using c1
  · simpa [Function.update_same] using c2
  · simpa [Function.update_same] using c3
  · simp [Function.update_same, c4, hblocked]
  · simp [Function.update_same]
  · simp [Function.update_same]
  · by_cases hji : j = i
    · subst hji
      simp [Function.update_same]
    · simp [Function.update_noteq hji]
  · simp [Function.update_same]
  · simp [Function.update_same]

/-- Further concrete fields of the `(value 5, limits (-inf, inf))` panel:
the slider ends unblocked and the spin boxes show the working window
`(4, 6)`. -/
theorem mkParameter_5_inf_more :
    ((mkParameter 5 (none, none) false).slider.blocked = false) ∧
    ((mkParameter 5 (none, none) false).tmin = 4) ∧
    ((mkParameter 5 (none, none) false).tmax = 6) := by
  have hg : guess_initial_step 5 none none = 1 / 100 := rfl
  have h1 : FloatSlider.init.setMinimum (5 - 100 * (1 / 100)) = (FloatSlider.init, []) := by
    simp only [FloatSlider.setMinimum]
    rw [if_pos (show FloatSlider.init.max ≤ 5 - 100 * (1 / 100) by
      norm_num [FloatSlider.init])]
  obtain ⟨m1, m2, _⟩ := setMaximum_of_lt FloatSlider.init (5 + 100 * (1 / 100))
    (by norm_num [FloatSlider.init])
  have hb : ((FloatSlider.init.setMaximum (5 + 100 * (1 / 100))).1.setValue 5).1.blocked
      = false := by
    obtain ⟨_, _, _, b4, _⟩ := setValue_inrange
      (FloatSlider.init.setMaximum (5 + 100 * (1 / 100))).1 5
      (by rw [m2]; norm_num [FloatSlider.init]) (by rw [m1]; norm_num)
    exact b4
  simp only [mkParameter, hg, Option.getD_none, h1]
  refine ⟨hb, by norm_num, by norm_num⟩

/-- **C3 counterexample.**  Three reachable failures of the claim:
(a) Reset writes the captured *true* limits into the minimizer — on the
one-parameter session with limits `(-inf, inf)` and captured finite window
`(4, 6)`, the minimizer's limits after Reset are `(-inf, inf)`, not
`(some 4, some 6)`;
(b) the slider window is not always restored — after the accepted edits
`tmin := 1` and `tmax := 2` the slider window is `[1, 2]`, and the Reset's
blocked `setMinimum 4` is a no-op (`2 ≤ 4`), leaving the slider's lower
bound at `1` instead of the captured `4`;
(c) with a "fit" toggle checked, the trailing callback re-runs the fit, so
the minimizer's values end at the post-fit values (`10`), not at the
captured originals (`5`). -/
theorem C3_counterexample :
    ((((mkMainWindow testMinuit).parameters 0).originalLimits = (4, 6)) ∧
      (((mkMainWindow testMinuit).on_reset_button_clicked idAlgo id
        Algo.migrad).minuit.limits 0 = (none, none)) ∧
      (((mkMainWindow testMinuit).on_reset_button_clicked idAlgo id
        Algo.migrad).minuit.limits 0 ≠ (some 4, some 6))) ∧
    ((((((mkMainWindow testMinuit).on_min_change idAlgo Algo.migrad 0 1).on_max_change
        idAlgo Algo.migrad 0 2).on_reset_button_clicked idAlgo id
        Algo.migrad).parameters 0).slider.min = 1 ∧
      (((((mkMainWindow testMinuit).on_min_change idAlgo Algo.migrad 0 1).on_max_change
        idAlgo Algo.migrad 0 2).parameters 0).originalLimits.1 = 4) ∧
      ((1 : ℚ) ≠ 4)) ∧
    (((testWindowFit.on_reset_button_clicked bigAlgo id Algo.migrad).minuit.values 0
        = 10) ∧
      (testWindowFit.original_values 0 = 5) ∧ ((10 : ℚ) ≠ 5)) := by
  have h0 : (mkMainWindow testMinuit).parameters 0 = mkParameter 5 (none, none) false := rfl
  have hma := reset_button_minuit idAlgo id Algo.migrad (mkMainWindow testMinuit)
    (fun _ => rfl)
  have hla : ((mkMainWindow testMinuit).on_reset_button_clicked idAlgo id
      Algo.migrad).minuit.limits 0 = (none, none) := by
    rw [hma.2.1]
    rfl
  have hPol : ((mkMainWindow testMinuit).parameters 0).originalLimits = (4, 6) := by
    rw [h0]
    exact mkParameter_5_inf_fields.2.2.2
  have hPmax : ((mkMainWindow testMinuit).parameters 0).slider.max = 6 := by
    rw [h0]
    exact mkParameter_5_inf_fields.2.1
  have hPval : ((mkMainWindow testMinuit).parameters 0).slider.val = 5 := by
    rw [h0]
    exact mkParameter_5_inf_fields.2.2.1
  have hPtmax : ((mkMainWindow testMinuit).parameters 0).tmax = 6 := by
    rw [h0]
    exact mkParameter_5_inf_more.2.2
  obtain ⟨a1, _, a3, a4, a5, _, a7, _, a9, _, _⟩ :=
    on_min_change_accept_quiet idAlgo Algo.migrad (mkMainWindow testMinuit) 0 1
      (by rw [hPtmax]; norm_num) (by rw [hPmax]; norm_num)
      (by rw [hPval]; norm_num) (by rw [hPval, hPmax]; norm_num)
  obtain ⟨b1, b2, _, _, _, _, b7, _, b9, _, _⟩ :=
    on_max_change_accept_clamp idAlgo Algo.migrad
      ((mkMainWindow testMinuit).on_min_change idAlgo Algo.migrad 0 1) 0 2
      (by rw [a5]; norm_num) (by rw [a1]; norm_num)
      (by rw [a3, hPval]; norm_num) (by rw [a1, a3, hPval]; norm_num)
      a4 (fun j => by rw [a7 j]; rfl)
  have hnofitB : ∀ j,
      ((((mkMainWindow testMinuit).on_min_change idAlgo Algo.migrad 0 1).on_max_change
        idAlgo Algo.migrad 0 2).parameters j).fitChecked = false :=
    fun j => by rw [b7 j, a7 j]; rfl
  have hmb := reset_button_minuit idAlgo id Algo.migrad
    (((mkMainWindow testMinuit).on_min_change idAlgo Algo.migrad 0 1).on_max_change
      idAlgo Algo.migrad 0 2) hnofitB
  have hOLB : ((((mkMainWindow testMinuit).on_min_change idAlgo Algo.migrad 0
      1).on_max_change idAlgo Algo.migrad 0 2).parameters 0).originalLimits = (4, 6) := by
    rw [b9, a9, hPol]
  have hreset : ((((((mkMainWindow testMinuit).on_min_change idAlgo Algo.migrad 0
      1).on_max_change idAlgo Algo.migrad 0 2).on_reset_button_clicked idAlgo id
      Algo.migrad).parameters 0).slider.min = 1) := by
    rw [hmb.2.2.2 0, reset_min_noop _ _ (by rw [b2, hOLB]; norm_num), b1, a1]
  refine ⟨⟨hPol, hla, ?_⟩, ⟨hreset, ?_, by norm_num⟩, rfl, rfl, by norm_num⟩
  · rw [hla]
    simp
  · rw [hOLB]

end Qtwidget
